import Mathlib

/-!
Verification of the student roster manager (`studentmanager.py`).

The in-memory roster (`self.students_df`, a pandas DataFrame with columns
`roll_no`, `name`, `marks`) is embedded as a `List Student`.  Each public
method of `StudentManager` becomes a pure function; interactive prompts are
embedded per candidate input (a value that the prompt loop would reject is
an error outcome leaving the state unchanged), and printed error messages
become `StudentError` values.  `_save_data` only performs file I/O and
never modifies the roster, so mutating operations return the new roster
state directly.
-/

/-- One student record: a row of the roster DataFrame. -/
structure Student where
  roll_no : Int
  name : String
  marks : Int
deriving Repr, DecidableEq

/-- Error kinds of the spec; the code reports them as printed messages. -/
inductive StudentError where
  | validationError (msg : String)
  | notFoundError
  | emptyRosterError
deriving Repr, DecidableEq

/-- `_apply_class_label` on a single marks value:
`pd.cut(marks, bins=[0, 35, 50, 60, 75, 101], labels=..., right=False)`
yields the label of the half-open bin containing `marks`, and `NaN`
(out-of-bin values) is afterwards replaced by the string `Fail`. -/
def classifyMarks (m : Int) : String :=
  if 0 ≤ m ∧ m < 35 then "Fail"
  else if 35 ≤ m ∧ m < 50 then "Third Class"
  else if 50 ≤ m ∧ m < 60 then "Second Class"
  else if 60 ≤ m ∧ m < 75 then "First Class"
  else if 75 ≤ m ∧ m < 101 then "Distinction"
  else "Fail"

/-- A possibly missing marks cell: `pd.cut` maps a missing value to `NaN`,
which `replace('nan', 'Fail')` turns into `Fail`. -/
def classifyOptMarks : Option Int → String
  | none => "Fail"
  | some m => classifyMarks m

/-- The `roll_no` column of the roster: `students_df['roll_no'].values`. -/
def rollNos (df : List Student) : List Int :=
  df.map Student.roll_no

/-- `add_student`: the name is stripped and rejected when empty; a roll
number already present in the `roll_no` column is rejected by the input
loop; marks are read with bounds `min_val=0, max_val=100`, so an
out-of-range value is rejected; otherwise the new row is concatenated to
the DataFrame (and saved).  Returns the outcome and the roster state. -/
def add_student (df : List Student) (name : String) (roll_no marks : Int) :
    Option StudentError × List Student :=
  if name.trim = "" then
    (some (.validationError "Student name cannot be empty"), df)
  else if roll_no ∈ rollNos df then
    (some (.validationError "Roll number already exists"), df)
  else if marks < 0 ∨ 100 < marks then
    (some (.validationError "Marks out of range"), df)
  else
    (none, df ++ [{ roll_no := roll_no, name := name.trim, marks := marks }])

/-- `search_student`: `students_df[students_df['roll_no'] == roll_no]`,
the rows whose roll number matches. -/
def search_student (df : List Student) (roll_no : Int) : List Student :=
  df.filter (fun s => s.roll_no = roll_no)

/-- The field chosen in `update_student` (menu choice 1 or 2) together with
the new value entered for it. -/
inductive UpdateField where
  | name (new_name : String)
  | marks (new_marks : Int)
deriving Repr, DecidableEq

/-- The in-place mutation `students_df.loc[index_to_update, field] = value`
applied to one matching row; a new name is stripped first. -/
def applyField (f : UpdateField) (s : Student) : Student :=
  match f with
  | .name n => { s with name := n.trim }
  | .marks m => { s with marks := m }

/-- `update_student`: when no row matches the roll number the update is
refused with not-found; for a name, the stripped empty string cancels the
update; for marks, the bounded input loop rejects values outside [0,100];
otherwise every row of `index_to_update` has the chosen field assigned
(and the data is saved). -/
def update_student (df : List Student) (roll_no : Int) (f : UpdateField) :
    Option StudentError × List Student :=
  if search_student df roll_no = [] then
    (some .notFoundError, df)
  else
    match f with
    | .name n =>
      if n.trim = "" then
        (some (.validationError "Name cannot be empty"), df)
      else
        (none, df.map (fun s => if s.roll_no = roll_no then applyField (.name n) s else s))
    | .marks m =>
      if m < 0 ∨ 100 < m then
        (some (.validationError "Marks out of range"), df)
      else
        (none, df.map (fun s => if s.roll_no = roll_no then applyField (.marks m) s else s))

/-- `delete_student`: a roll number absent from the `roll_no` column is
reported not found; otherwise the roster is replaced by
`students_df[students_df['roll_no'] != roll_no]` (and saved). -/
def delete_student (df : List Student) (roll_no : Int) :
    Option StudentError × List Student :=
  if roll_no ∈ rollNos df then
    (none, df.filter (fun s => ¬ s.roll_no = roll_no))
  else
    (some .notFoundError, df)

/-- `marks.max()` over a roster known to be non-empty, seeded with the
first row's marks. -/
def maxMarksFrom (m : Int) (df : List Student) : Int :=
  df.foldl (fun acc s => max acc s.marks) m

/-- `marks.min()` over a roster known to be non-empty. -/
def minMarksFrom (m : Int) (df : List Student) : Int :=
  df.foldl (fun acc s => min acc s.marks) m

/-- The statistics printed by `generate_report`: total count, average,
highest and lowest marks, and the rows attaining the highest marks. -/
structure Report where
  total : Nat
  average : Rat
  highest : Int
  lowest : Int
  top_students : List Student
deriving Repr, DecidableEq

/-- `generate_report` on a non-empty roster: `len(report_df)`,
`marks.mean()`, `marks.max()`, `marks.min()`, and
`report_df[report_df['marks'] == highest_mark]` as the top performers. -/
def reportOf (s : Student) (rest : List Student) : Report :=
  let df := s :: rest
  let highest := maxMarksFrom s.marks rest
  { total := df.length
    average := (df.map Student.marks).sum / (df.length : Rat)
    highest := highest
    lowest := minMarksFrom s.marks rest
    top_students := df.filter (fun t => t.marks = highest) }

/-- `generate_report`: an empty roster is refused before any statistic is
computed; otherwise the report statistics are produced.  The method works
on `students_df.copy()` and never assigns `self.students_df`, so the
roster state is returned unchanged. -/
def generate_report (df : List Student) :
    Except StudentError Report × List Student :=
  match df with
  | [] => (.error .emptyRosterError, [])
  | s :: rest => (.ok (reportOf s rest), s :: rest)

/-- A row of the persisted sheet as read back, before
`df['roll_no'] = df['roll_no'].fillna(-1).astype(int)`: the `roll_no`
cell may be missing (`NaN`). -/
structure RawRow where
  roll_no : Option Int
  name : String
  marks : Int
deriving Repr, DecidableEq

/-- `fillna(-1).astype(int)` on one row: a missing roll number becomes
the integer `-1`; the other cells are kept as they are. -/
def loadRow (r : RawRow) : Student :=
  { roll_no := r.roll_no.getD (-1), name := r.name, marks := r.marks }

/-- `_load_data` on a readable file: every row of the sheet is kept, with
the `roll_no` column passed through `fillna(-1).astype(int)`. -/
def load_data (rows : List RawRow) : List Student :=
  rows.map loadRow

/-! ## Theorems -/

/-- Claim C1: for every integer marks value `m`, the classifier assigns the
grade band by half-open bins: `[0,35)` gives Fail, `[35,50)` Third Class,
`[50,60)` Second Class, `[60,75)` First Class, and `[75,100]` Distinction;
in particular `0 ↦ Fail`, `35 ↦ Third Class`, `75 ↦ Distinction` and
`100 ↦ Distinction`. -/
theorem classify_half_open_bins (m : Int) :
    (0 ≤ m ∧ m < 35 → classifyMarks m = "Fail") ∧
    (35 ≤ m ∧ m < 50 → classifyMarks m = "Third Class") ∧
    (50 ≤ m ∧ m < 60 → classifyMarks m = "Second Class") ∧
    (60 ≤ m ∧ m < 75 → classifyMarks m = "First Class") ∧
    (75 ≤ m ∧ m ≤ 100 → classifyMarks m = "Distinction") ∧
    classifyMarks 0 = "Fail" ∧ classifyMarks 35 = "Third Class" ∧
    classifyMarks 75 = "Distinction" ∧ classifyMarks 100 = "Distinction" := by
  refine ⟨?_, ?_, ?_, ?_, ?_, by decide, by decide, by decide, by decide⟩ <;>
    · intro h
      unfold classifyMarks
      split_ifs <;> first | rfl | omega

/-- Claim C1 witness at `m = 62`. -/
theorem classify_half_open_bins_witness :
    (60 ≤ (62 : Int) ∧ (62 : Int) < 75) ∧ classifyMarks 62 = "First Class" :=
  ⟨by decide, (classify_half_open_bins 62).2.2.2.1 (by decide)⟩

/-- Claim C4: every marks value outside `[0,100]` falls outside all bins of
`pd.cut`, so its `NaN` label is replaced by Fail; a missing marks value is
likewise labelled Fail. -/
theorem classify_out_of_range_fail (m : Int) (h : m < 0 ∨ 100 < m) :
    classifyMarks m = "Fail" ∧ classifyOptMarks none = "Fail" := by
  refine ⟨?_, rfl⟩
  unfold classifyMarks
  split_ifs <;> first | rfl | omega

/-- Claim C4 witness at `m = 101`. -/
theorem classify_out_of_range_fail_witness :
    ((101 : Int) < 0 ∨ (100 : Int) < 101) ∧
      classifyMarks 101 = "Fail" ∧ classifyOptMarks none = "Fail" :=
  ⟨by decide, classify_out_of_range_fail 101 (by decide)⟩

/-- Claim C8: requesting the report on an empty roster fails with the
empty-roster error, no statistics are produced, and the roster is left
unchanged. -/
theorem report_on_empty_roster :
    generate_report [] = (Except.error StudentError.emptyRosterError, []) := rfl

/-- Claim C10: loading a persisted sheet keeps every row; a row whose
`roll_no` cell is missing is kept with roll number `-1` and its other
fields intact, so the loaded roster can contain negative roll numbers —
and, as the concrete double-missing file shows, duplicate `-1` values. -/
theorem load_fills_missing_roll_no (rows : List RawRow) (i : Nat)
    (hi : i < rows.length) (hmiss : (rows.get ⟨i, hi⟩).roll_no = none) :
    (load_data rows).length = rows.length ∧
    (∃ hj : i < (load_data rows).length,
      ((load_data rows).get ⟨i, hj⟩).roll_no = -1 ∧
      ((load_data rows).get ⟨i, hj⟩).name = (rows.get ⟨i, hi⟩).name ∧
      ((load_data rows).get ⟨i, hj⟩).marks = (rows.get ⟨i, hi⟩).marks) ∧
    rollNos (load_data [⟨none, "Alice", 50⟩, ⟨none, "Bob", 60⟩]) = [-1, -1] := by
  simp only [List.get_eq_getElem] at hmiss
  refine ⟨List.length_map _ _, ?_, by decide⟩
  refine ⟨by simpa [load_data] using hi, ?_, ?_, ?_⟩ <;>
    simp [load_data, List.getElem_map, loadRow, hmiss]

/-- Claim C10 witness: a two-row file whose first row lacks a roll number. -/
theorem load_fills_missing_roll_no_witness :
    (([⟨none, "Alice", 50⟩, ⟨some 7, "Bob", 60⟩] : List RawRow).get
        ⟨0, by decide⟩).roll_no = none ∧
    (load_data [⟨none, "Alice", 50⟩, ⟨some 7, "Bob", 60⟩]).length = 2 ∧
    (∃ hj : 0 < (load_data [⟨none, "Alice", 50⟩, ⟨some 7, "Bob", 60⟩]).length,
      ((load_data [⟨none, "Alice", 50⟩, ⟨some 7, "Bob", 60⟩]).get
          ⟨0, hj⟩).roll_no = -1 ∧
      ((load_data [⟨none, "Alice", 50⟩, ⟨some 7, "Bob", 60⟩]).get ⟨0, hj⟩).name
        = (([⟨none, "Alice", 50⟩, ⟨some 7, "Bob", 60⟩] : List RawRow).get
            ⟨0, by decide⟩).name ∧
      ((load_data [⟨none, "Alice", 50⟩, ⟨some 7, "Bob", 60⟩]).get ⟨0, hj⟩).marks
        = (([⟨none, "Alice", 50⟩, ⟨some 7, "Bob", 60⟩] : List RawRow).get
            ⟨0, by decide⟩).marks) ∧
    rollNos (load_data [⟨none, "Alice", 50⟩, ⟨none, "Bob", 60⟩]) = [-1, -1] :=
  ⟨rfl, load_fills_missing_roll_no [⟨none, "Alice", 50⟩, ⟨some 7, "Bob", 60⟩]
    0 (by decide) rfl⟩

/-- A roll number is in the `roll_no` column exactly when some roster row
carries it. -/
theorem mem_rollNos_iff {df : List Student} {r : Int} :
    r ∈ rollNos df ↔ ∃ s ∈ df, s.roll_no = r := by
  simp [rollNos, List.mem_map]

/-- The search result is empty exactly when the roll number is absent from
the `roll_no` column. -/
theorem search_student_eq_nil_iff {df : List Student} {r : Int} :
    search_student df r = [] ↔ r ∉ rollNos df := by
  rw [mem_rollNos_iff]
  simp only [search_student, List.filter_eq_nil_iff, decide_eq_true_eq]
  constructor
  · intro h hex
    obtain ⟨s, hs, heq⟩ := hex
    exact h s hs heq
  · intro h s hs heq
    exact h ⟨s, hs, heq⟩

/-- Claim C2: `add` is refused with a validation error — leaving the
roster unchanged — when the stripped name is empty, when the roll number
is already present, or when the marks lie outside `[0,100]`; otherwise it
reports no error and appends exactly the new record. -/
theorem add_student_validation (df : List Student) (name : String)
    (roll marks : Int) :
    ((name.trim = "" ∨ roll ∈ rollNos df ∨ marks < 0 ∨ 100 < marks) →
      (∃ msg, (add_student df name roll marks).1
          = some (StudentError.validationError msg)) ∧
      (add_student df name roll marks).2 = df) ∧
    (name.trim ≠ "" → roll ∉ rollNos df → 0 ≤ marks → marks ≤ 100 →
      (add_student df name roll marks).1 = none ∧
      (add_student df name roll marks).2
        = df ++ [{ roll_no := roll, name := name.trim, marks := marks }]) := by
  constructor
  · intro h
    unfold add_student
    split_ifs with h1 h2 h3
    · exact ⟨⟨_, rfl⟩, rfl⟩
    · exact ⟨⟨_, rfl⟩, rfl⟩
    · exact ⟨⟨_, rfl⟩, rfl⟩
    · rcases h with h | h | h | h
      · exact absurd h h1
      · exact absurd h h2
      · exact absurd (Or.inl h) h3
      · exact absurd (Or.inr h) h3
  · intro hn hr hm1 hm2
    unfold add_student
    rw [if_neg hn, if_neg hr, if_neg (by omega : ¬(marks < 0 ∨ 100 < marks))]
    exact ⟨rfl, rfl⟩

/-- Claim C2 witness: the failing duplicate-roll case and the successful
case, both on the one-record roster. -/
theorem add_student_validation_witness :
    (("Bob".trim = "" ∨ (1 : Int) ∈ rollNos [⟨1, "Alice", 50⟩] ∨
        (60 : Int) < 0 ∨ (100 : Int) < 60) →
      (∃ msg, (add_student [⟨1, "Alice", 50⟩] "Bob" 1 60).1
          = some (StudentError.validationError msg)) ∧
      (add_student [⟨1, "Alice", 50⟩] "Bob" 1 60).2 = [⟨1, "Alice", 50⟩]) ∧
    ("Bob".trim ≠ "" → (1 : Int) ∉ rollNos [⟨1, "Alice", 50⟩] →
      (0 : Int) ≤ 60 → (60 : Int) ≤ 100 →
      (add_student [⟨1, "Alice", 50⟩] "Bob" 1 60).1 = none ∧
      (add_student [⟨1, "Alice", 50⟩] "Bob" 1 60).2
        = [⟨1, "Alice", 50⟩] ++ [{ roll_no := 1, name := "Bob".trim, marks := 60 }]) :=
  add_student_validation [⟨1, "Alice", 50⟩] "Bob" 1 60

/-- Claim C5: updating a roll number that is absent from the roster is
refused with the not-found error and no record is mutated, whichever field
and value were going to be set. -/
theorem update_student_absent_not_found (df : List Student) (roll : Int)
    (f : UpdateField) (h : roll ∉ rollNos df) :
    (update_student df roll f).1 = some StudentError.notFoundError ∧
    (update_student df roll f).2 = df := by
  unfold update_student
  rw [if_pos (search_student_eq_nil_iff.mpr h)]
  exact ⟨rfl, rfl⟩

/-- Claim C5 witness: `update(roll_no=99, field=marks, value=70)` on the
one-record roster without roll number 99. -/
theorem update_student_absent_not_found_witness :
    (99 : Int) ∉ rollNos [⟨1, "Alice", 50⟩] ∧
    (update_student [⟨1, "Alice", 50⟩] 99 (UpdateField.marks 70)).1
      = some StudentError.notFoundError ∧
    (update_student [⟨1, "Alice", 50⟩] 99 (UpdateField.marks 70)).2
      = [⟨1, "Alice", 50⟩] :=
  ⟨by decide, update_student_absent_not_found [⟨1, "Alice", 50⟩] 99
    (UpdateField.marks 70) (by decide)⟩

/-- Claim C7: deleting a roll number that is present succeeds, and a
subsequent search for that roll number finds no record. -/
theorem delete_then_search_absent (df : List Student) (roll : Int)
    (h : roll ∈ rollNos df) :
    (delete_student df roll).1 = none ∧
    search_student (delete_student df roll).2 roll = [] := by
  unfold delete_student
  rw [if_pos h]
  refine ⟨rfl, ?_⟩
  simp only [search_student, List.filter_eq_nil_iff, List.mem_filter,
    decide_eq_true_eq]
  intro s hs
  exact hs.2

/-- Claim C7 witness: delete roll number 1 from a two-record roster, then
search for it. -/
theorem delete_then_search_absent_witness :
    (1 : Int) ∈ rollNos [⟨1, "Alice", 50⟩, ⟨2, "Bob", 60⟩] ∧
    (delete_student [⟨1, "Alice", 50⟩, ⟨2, "Bob", 60⟩] 1).1 = none ∧
    search_student (delete_student [⟨1, "Alice", 50⟩, ⟨2, "Bob", 60⟩] 1).2 1
      = [] :=
  ⟨by decide, delete_then_search_absent [⟨1, "Alice", 50⟩, ⟨2, "Bob", 60⟩] 1
    (by decide)⟩

/-- Mapping a roll-number-preserving function over the roster leaves the
`roll_no` column unchanged. -/
theorem rollNos_map_of_preserving (df : List Student) (g : Student → Student)
    (hg : ∀ s, (g s).roll_no = s.roll_no) :
    rollNos (df.map g) = rollNos df := by
  simp only [rollNos, List.map_map]
  exact List.map_congr_left (fun s _ => hg s)

/-- Claim C3 counterexample: the state right after startup load — an
observable roster state — can contain two records sharing roll number
`-1`, when the persisted sheet has two rows with a missing `roll_no`. -/
theorem roster_nodup_counterexample :
    ¬ (rollNos (load_data [⟨none, "Alice", 50⟩, ⟨none, "Bob", 60⟩])).Nodup := by
  decide

/-- Claim C3 (amended): starting from any roster whose `roll_no` column
has no duplicates, the state after an `add`, `update` or `delete`
operation again has no duplicates; the startup load, however, does not
enforce the invariant. -/
theorem crud_preserves_roll_no_nodup (df : List Student)
    (h : (rollNos df).Nodup) (name : String) (roll marks : Int)
    (f : UpdateField) :
    (rollNos (add_student df name roll marks).2).Nodup ∧
    (rollNos (update_student df roll f).2).Nodup ∧
    (rollNos (delete_student df roll).2).Nodup := by
  refine ⟨?_, ?_, ?_⟩
  · by_cases h1 : name.trim = ""
    · unfold add_student; rw [if_pos h1]; exact h
    · by_cases h2 : roll ∈ rollNos df
      · unfold add_student; rw [if_neg h1, if_pos h2]; exact h
      · by_cases h3 : marks < 0 ∨ 100 < marks
        · unfold add_student; rw [if_neg h1, if_neg h2, if_pos h3]; exact h
        · unfold add_student; rw [if_neg h1, if_neg h2, if_neg h3]
          simp only [rollNos, List.map_append, List.map_cons, List.map_nil]
          rw [List.nodup_append]
          refine ⟨h, List.nodup_singleton _, ?_⟩
          intro a ha hb
          simp only [List.mem_singleton] at hb
          subst hb
          exact h2 ha
  · unfold update_student
    by_cases hs : search_student df roll = []
    · rw [if_pos hs]; exact h
    · rw [if_neg hs]
      cases f with
      | name n =>
        by_cases hn : n.trim = ""
        · dsimp only
          rw [if_pos hn]; exact h
        · dsimp only
          rw [if_neg hn]
          dsimp only
          rw [rollNos_map_of_preserving df _
            (fun s => by by_cases hc : s.roll_no = roll <;> simp [hc, applyField])]
          exact h
      | marks m =>
        by_cases hm : m < 0 ∨ 100 < m
        · dsimp only
          rw [if_pos hm]; exact h
        · dsimp only
          rw [if_neg hm]
          dsimp only
          rw [rollNos_map_of_preserving df _
            (fun s => by by_cases hc : s.roll_no = roll <;> simp [hc, applyField])]
          exact h
  · unfold delete_student
    by_cases hm : roll ∈ rollNos df
    · rw [if_pos hm]
      exact List.Sublist.nodup (List.Sublist.map _ (List.filter_sublist df)) h
    · rw [if_neg hm]; exact h

/-- Claim C3 (amended) witness: the singleton roster, adding roll 2,
updating marks of roll 2, deleting roll 2. -/
theorem crud_preserves_roll_no_nodup_witness :
    (rollNos [⟨1, "Alice", 50⟩]).Nodup ∧
    ((rollNos (add_student [⟨1, "Alice", 50⟩] "Bob" 2 60).2).Nodup ∧
     (rollNos (update_student [⟨1, "Alice", 50⟩] 2 (UpdateField.marks 70)).2).Nodup ∧
     (rollNos (delete_student [⟨1, "Alice", 50⟩] 2).2).Nodup) :=
  ⟨by decide, crud_preserves_roll_no_nodup [⟨1, "Alice", 50⟩] (by decide)
    "Bob" 2 60 (UpdateField.marks 70)⟩

/-- Searching after mapping a roll-number-preserving function is mapping
over the original search result. -/
theorem search_student_map_of_preserving (df : List Student) (roll : Int)
    (g : Student → Student) (hg : ∀ s, (g s).roll_no = s.roll_no) :
    search_student (df.map g) roll = (search_student df roll).map g := by
  induction df with
  | nil => rfl
  | cons a l ih =>
    unfold search_student at ih ⊢
    simp only [List.map_cons, List.filter_cons, hg a]
    by_cases hc : a.roll_no = roll
    · simp [hc, ih]
    · simp [hc, ih]

/-- Claim C6: after a successful update of one field of a present record,
searching the same roll number returns exactly the previously matching
records with that field set to the new value and every other field,
including the roll number, unchanged. -/
theorem update_then_search_updates_field (df : List Student) (roll : Int)
    (f : UpdateField) (hpres : search_student df roll ≠ [])
    (hok : (update_student df roll f).1 = none) :
    search_student (update_student df roll f).2 roll
      = (search_student df roll).map (applyField f) ∧
    ∀ s ∈ search_student df roll,
      (applyField f s).roll_no = s.roll_no ∧
      (match f with
        | UpdateField.name n =>
            (applyField f s).name = n.trim ∧ (applyField f s).marks = s.marks
        | UpdateField.marks m =>
            (applyField f s).marks = m ∧ (applyField f s).name = s.name) := by
  refine ⟨?_, ?_⟩
  · unfold update_student at hok ⊢
    rw [if_neg hpres] at hok ⊢
    cases f with
    | name n =>
      dsimp only at hok ⊢
      by_cases hn : n.trim = ""
      · rw [if_pos hn] at hok; exact absurd hok (by simp)
      · rw [if_neg hn] at hok ⊢
        dsimp only
        rw [search_student_map_of_preserving df roll _
          (fun s => by by_cases hc : s.roll_no = roll <;> simp [hc, applyField])]
        apply List.map_congr_left
        intro s hs
        have hroll : s.roll_no = roll := by
          have := (List.mem_filter.mp hs).2
          simpa using this
        rw [if_pos hroll]
    | marks m =>
      dsimp only at hok ⊢
      by_cases hm : m < 0 ∨ 100 < m
      · rw [if_pos hm] at hok; exact absurd hok (by simp)
      · rw [if_neg hm] at hok ⊢
        dsimp only
        rw [search_student_map_of_preserving df roll _
          (fun s => by by_cases hc : s.roll_no = roll <;> simp [hc, applyField])]
        apply List.map_congr_left
        intro s hs
        have hroll : s.roll_no = roll := by
          have := (List.mem_filter.mp hs).2
          simpa using this
        rw [if_pos hroll]
  · intro s _
    cases f with
    | name n => exact ⟨rfl, rfl, rfl⟩
    | marks m => exact ⟨rfl, rfl, rfl⟩

/-- Claim C6 witness: updating the marks of roll 1 to 70 on the singleton
roster, then searching roll 1. -/
theorem update_then_search_updates_field_witness :
    search_student [⟨1, "Alice", 50⟩] 1 ≠ [] ∧
    (update_student [⟨1, "Alice", 50⟩] 1 (UpdateField.marks 70)).1 = none ∧
    (search_student
        (update_student [⟨1, "Alice", 50⟩] 1 (UpdateField.marks 70)).2 1
      = (search_student [⟨1, "Alice", 50⟩] 1).map
          (applyField (UpdateField.marks 70)) ∧
     ∀ s ∈ search_student [⟨1, "Alice", 50⟩] 1,
       (applyField (UpdateField.marks 70) s).roll_no = s.roll_no ∧
       (applyField (UpdateField.marks 70) s).marks = 70 ∧
       (applyField (UpdateField.marks 70) s).name = s.name) :=
  ⟨by decide, by decide,
    update_then_search_updates_field [⟨1, "Alice", 50⟩] 1
      (UpdateField.marks 70) (by decide) (by decide)⟩

/-- The folded maximum bounds its seed and every element of the list. -/
theorem maxMarksFrom_is_upper_bound (df : List Student) (m : Int) :
    m ≤ maxMarksFrom m df ∧ ∀ s ∈ df, s.marks ≤ maxMarksFrom m df := by
  induction df generalizing m with
  | nil =>
    exact ⟨le_refl m, by intro s hs; exact absurd hs (List.not_mem_nil s)⟩
  | cons a l ih =>
    have hstep : maxMarksFrom m (a :: l) = maxMarksFrom (max m a.marks) l := rfl
    constructor
    · rw [hstep]
      exact le_trans (le_max_left m a.marks) (ih (max m a.marks)).1
    · intro s hs
      rw [hstep]
      rcases List.mem_cons.mp hs with rfl | hs
      · exact le_trans (le_max_right m s.marks) (ih (max m s.marks)).1
      · exact (ih (max m a.marks)).2 s hs

/-- The folded maximum is attained by the seed or by some list element. -/
theorem maxMarksFrom_attained (df : List Student) (m : Int) :
    maxMarksFrom m df = m ∨ ∃ s ∈ df, maxMarksFrom m df = s.marks := by
  induction df generalizing m with
  | nil => exact Or.inl rfl
  | cons a l ih =>
    have hstep : maxMarksFrom m (a :: l) = maxMarksFrom (max m a.marks) l := rfl
    rcases ih (max m a.marks) with h | ⟨s, hs, h⟩
    · rcases max_choice m a.marks with hm | hm
      · left
        rw [hstep, h, hm]
      · right
        exact ⟨a, List.mem_cons_self a l, by rw [hstep, h, hm]⟩
    · right
      exact ⟨s, List.mem_cons_of_mem a hs, by rw [hstep, h]⟩

/-- Claim C9: on a non-empty roster the report is produced, and its
top-performer list contains exactly the roster records whose marks are
maximal over the roster — all ties included. -/
theorem report_top_performers (df : List Student) (h : df ≠ []) :
    ∃ rep, (generate_report df).1 = Except.ok rep ∧
      ∀ s, s ∈ rep.top_students ↔ s ∈ df ∧ ∀ t ∈ df, t.marks ≤ s.marks := by
  cases df with
  | nil => exact absurd rfl h
  | cons a l =>
    refine ⟨reportOf a l, rfl, ?_⟩
    intro s
    have htop : (reportOf a l).top_students
        = (a :: l).filter (fun t => t.marks = maxMarksFrom a.marks l) := rfl
    rw [htop]
    constructor
    · intro hs
      obtain ⟨hmem, heq⟩ := List.mem_filter.mp hs
      have heq : s.marks = maxMarksFrom a.marks l := by simpa using heq
      refine ⟨hmem, ?_⟩
      intro t ht
      rw [heq]
      rcases List.mem_cons.mp ht with rfl | ht
      · exact (maxMarksFrom_is_upper_bound l t.marks).1
      · exact (maxMarksFrom_is_upper_bound l a.marks).2 t ht
    · rintro ⟨hmem, hub⟩
      refine List.mem_filter.mpr ⟨hmem, ?_⟩
      have hle : s.marks ≤ maxMarksFrom a.marks l := by
        rcases List.mem_cons.mp hmem with rfl | hmem
        · exact (maxMarksFrom_is_upper_bound l s.marks).1
        · exact (maxMarksFrom_is_upper_bound l a.marks).2 s hmem
      have hge : maxMarksFrom a.marks l ≤ s.marks := by
        rcases maxMarksFrom_attained l a.marks with hat | ⟨t, ht, hat⟩
        · rw [hat]
          exact hub a (List.mem_cons_self a l)
        · rw [hat]
          exact hub t (List.mem_cons_of_mem a ht)
      simpa using le_antisymm hle hge

/-- Claim C9 witness: the spec's example roster, where Alice with 90 marks
is the sole top performer. -/
theorem report_top_performers_witness :
    ([⟨1, "Alice", 90⟩, ⟨2, "Bob", 40⟩] : List Student) ≠ [] ∧
    ∃ rep,
      (generate_report [⟨1, "Alice", 90⟩, ⟨2, "Bob", 40⟩]).1 = Except.ok rep ∧
      ∀ s, s ∈ rep.top_students ↔
        s ∈ ([⟨1, "Alice", 90⟩, ⟨2, "Bob", 40⟩] : List Student) ∧
        ∀ t ∈ ([⟨1, "Alice", 90⟩, ⟨2, "Bob", 40⟩] : List Student),
          t.marks ≤ s.marks :=
  ⟨by decide,
    report_top_performers [⟨1, "Alice", 90⟩, ⟨2, "Bob", 40⟩] (by decide)⟩
